import Mathlib

/-!
# Verification of the authentication/query-cache glue

Shallow embedding of the repository's authentication facade
(`getUserQueryOptions`, `useUser`, `useLogin`, `useLogout`, the zod
input schemas `loginInputSchema` / `registerInputSchema`) and of the
two query-client configurations (`queryConfig` and `createQueryClient`).

Library semantics that the source composes are modelled explicitly:

* TanStack Query: a query with `enabled: false` never runs its
  `queryFn`, but `useQuery` still reports whatever value the cache
  holds under the query key (disabling only suppresses fetching, it
  does not hide cached data).  A mutation's `onSuccess` handler runs
  exactly once after the `mutationFn` resolves, and never when it
  rejects.
* JavaScript truthiness: `if (result?.error)` takes the branch only
  when `error` is a defined, non-empty string.
* zod: `z.object` requires its listed keys (unless defaulted),
  `.and` parses both sides and merges, `.or` tries the left branch
  first and falls back to the right.
-/

namespace PersonalWebsite

/-- Client-side projection of a user (identifier, email, display name),
as described by the `User` type consumed from `@/types/api`. -/
structure User where
  id : String
  email : String
  name : String
deriving DecidableEq, Repr

/-- A session held by the session provider; `useUser` reads
`session.user` from it. -/
structure Session where
  user : User
deriving DecidableEq, Repr

/-- The response shape `{ data: User }` that `api.get('/auth/me')`
resolves to on success. -/
structure AuthMeResponse where
  data : User
deriving DecidableEq, Repr

/-- The query cache: an association from query keys to the cached
value of the query.  A cached value is `Option User` because the
user query function can resolve to `null`.  An absent key models a
cache with no entry under that key. -/
def QueryCache : Type := List (String × Option User)

/-- The cached value visible under the `"user"` key: `none` when the
entry is absent or holds `null`, `some u` when it holds a user. -/
def cachedUser (cache : QueryCache) : Option User :=
  (List.lookup "user" cache).bind id

/-- The query function of `getUserQueryOptions`: awaits
`api.get('/auth/me')` and returns its `data`; any thrown error is
caught and turned into `null`.  The argument is the outcome of the
HTTP call (`Except.error` for a network failure, 401, or any other
throw); the result is `Except.ok` whenever the function itself does
not throw. -/
def getUserQueryFn (response : Except String AuthMeResponse) :
    Except String (Option User) :=
  match response with
  | Except.ok r => Except.ok (some r.data)
  | Except.error _ => Except.ok none

/-- Result of a `useQuery` call, restricted to the parts the source
reads: the reported `data` and whether the `queryFn` is triggered. -/
structure UseQueryResult where
  data : Option User
  fetchTriggered : Bool
deriving DecidableEq, Repr

/-- Model of `useQuery({...getUserQueryOptions(), enabled})`: the
`queryFn` runs only when `enabled` and the entry is missing or stale;
the reported `data` is the cached value under `"user"` regardless of
`enabled`. -/
def useQueryUser (cache : QueryCache) (enabled : Bool) (stale : Bool) :
    UseQueryResult :=
  { data := cachedUser cache
    fetchTriggered :=
      enabled && ((List.lookup "user" cache).isNone || stale) }

/-- Model of `useUser`: reads the session, runs the user query with
`enabled: !!session`, and returns `session?.user ?? query.data ?? null`
(`none` models both `null` and `undefined`). -/
def useUser (session : Option Session) (cache : QueryCache)
    (stale : Bool) : UseQueryResult :=
  let query := useQueryUser cache session.isSome stale
  { data := (session.map Session.user).orElse (fun _ => query.data)
    fetchTriggered := query.fetchTriggered }

/-! ## Login (`useLogin`) -/

/-- The result object that `signIn('credentials', ...)` resolves to:
next-auth's `SignInResponse`, of which the source only reads the
optional `error` string. -/
structure SignInResult where
  error : Option String
deriving DecidableEq, Repr

/-- JavaScript truthiness of an optional string: `undefined` and the
empty string are falsy. -/
def jsTruthy (s : Option String) : Bool :=
  match s with
  | some str => str ≠ ""
  | none => false

/-- The `error` read by `result?.error`: `result` itself may be
`undefined`. -/
def resultError (result : Option SignInResult) : Option String :=
  result.bind SignInResult.error

/-- One run of `useLogin`'s mutation: the `mutationFn` awaits
`signIn`, throws `new Error(result.error)` when `result?.error` is
truthy, and otherwise returns `result`; `onSuccess` (the
caller-supplied callback) fires exactly once when the
`mutationFn` resolves and never when it throws.  The argument is the
resolved `signIn` result; the return value pairs the mutation outcome
with the number of times the success callback was invoked. -/
def runLoginMutation (result : Option SignInResult) :
    Except String (Option SignInResult) × Nat :=
  match resultError result with
  | some e => if e ≠ "" then (Except.error e, 0) else (Except.ok result, 1)
  | none => (Except.ok result, 1)

/-! ## Logout (`useLogout`) -/

/-- Observable events of one logout run, in order: the removal of the
`"user"` queries and the invocation of the caller-supplied success
callback. -/
inductive LogoutEvent where
  | removeUserQueries
  | successCallback
deriving DecidableEq, Repr

/-- `queryClient.removeQueries({ queryKey: ['user'] })`: drops every
cache entry under the `"user"` key. -/
def removeUserEntries (cache : QueryCache) : QueryCache :=
  cache.filter (fun p => p.1 ≠ "user")

/-- One run of `useLogout`'s mutation: the `mutationFn` awaits
`signOut({ redirect: false })`; on resolution the `onSuccess` handler
removes the `"user"` queries and then calls the caller-supplied
callback; on rejection nothing else runs.  `signOutOk` is whether
`signOut` resolved; the return value is the cache afterwards together
with the ordered list of observable events. -/
def runLogout (signOutOk : Bool) (cache : QueryCache) :
    QueryCache × List LogoutEvent :=
  if signOutOk then
    (removeUserEntries cache,
      [LogoutEvent.removeUserQueries, LogoutEvent.successCallback])
  else
    (cache, [])

/-! ## Login input schema (`loginInputSchema`) -/

/-- Characters allowed anywhere in the local part of an address by
zod's email pattern: ASCII letters, digits, `_`, apostrophe, `+`,
`-`, `.` (the pattern is case-insensitive). -/
def isLocalChar (c : Char) : Bool :=
  c.isAlpha || c.isDigit || c = '_' || c = '+' || c = '-' || c = '.' ||
    c.toNat = 39

/-- Characters allowed as the final character of the local part: the
local characters minus `.` and the apostrophe. -/
def isLocalEndChar (c : Char) : Bool :=
  c.isAlpha || c.isDigit || c = '_' || c = '+' || c = '-'

/-- Whether a character list contains two consecutive dots. -/
def hasDoubleDot : List Char → Bool
  | c1 :: c2 :: rest =>
      (c1 = '.' && c2 = '.') || hasDoubleDot (c2 :: rest)
  | _ => false

/-- A non-final domain label: nonempty, starts with a letter or digit,
continues with letters, digits or hyphens. -/
def isDomainLabel (s : String) : Bool :=
  match s.toList with
  | [] => false
  | c :: rest =>
      (c.isAlpha || c.isDigit) &&
        rest.all (fun d => d.isAlpha || d.isDigit || d = '-')

/-- The final domain label: at least two letters. -/
def isTld (s : String) : Bool :=
  s.length ≥ 2 && s.toList.all Char.isAlpha

/-- The local part before the `@`: nonempty, every character from the
local class, the last character from the restricted class. -/
def isLocalPart (s : String) : Bool :=
  match s.toList with
  | [] => false
  | l =>
      l.all isLocalChar &&
        (match l.getLast? with
          | some c => isLocalEndChar c
          | none => false)

/-- The domain after the `@`: one or more labels separated by dots,
ending in a top-level label of at least two letters. -/
def isDomainPart (s : String) : Bool :=
  let labels := s.splitOn "."
  labels.length ≥ 2 &&
    labels.dropLast.all isDomainLabel &&
      (match labels.getLast? with
        | some tld => isTld tld
        | none => false)

/-- Model of `z.string().email()`: zod's email pattern
`^(?!\.)(?!.*\.\.)([A-Z0-9_'+\-\.]*)[A-Z0-9_+-]@([A-Z0-9][A-Z0-9\-]*\.)+[A-Z]{2,}$`
(case-insensitive).  Neither side of the `@` may itself contain an
`@`, so the string must split into exactly a local part and a domain;
the two lookaheads forbid a leading dot and any two consecutive
dots. -/
def isZodEmail (s : String) : Bool :=
  (match s.toList with
    | [] => false
    | c :: _ => c ≠ '.') &&
    !hasDoubleDot s.toList &&
      (match s.splitOn "@" with
        | [localPart, domain] => isLocalPart localPart && isDomainPart domain
        | _ => false)

/-- The validated login input (`LoginInput`). -/
structure LoginInput where
  email : String
  password : String
deriving DecidableEq, Repr

/-- Model of `loginInputSchema.parse`: `email` must be a nonempty
string in email format, `password` a string of length at least 5. -/
def parseLoginInput (email password : String) : Option LoginInput :=
  if email.length ≥ 1 && isZodEmail email && password.length ≥ 5 then
    some { email := email, password := password }
  else
    none

/-- Modelled from the spec: the login form (not part of this excerpt)
validates the credentials against `loginInputSchema` before
submission, and only a validated input reaches `useLogin`'s mutation
and hence the session provider's credential exchange.  The return
value is the outcome together with the number of `signIn` calls and
the number of success-callback invocations. -/
def submitLogin (email password : String)
    (providerResult : Option SignInResult) :
    Except String (Option SignInResult) × Nat × Nat :=
  match parseLoginInput email password with
  | none => (Except.error "validation failed", 0, 0)
  | some _ =>
      let run := runLoginMutation providerResult
      (run.1, 1, run.2)

/-! ## Registration input schema (`registerInputSchema`) -/

/-- A JSON value as far as the registration schema inspects one:
a string or `null`. -/
inductive JVal where
  | str (s : String)
  | nullv
deriving DecidableEq, Repr

/-- The raw registration submission: each key is either absent
(`none`) or present with a string or `null` value. -/
structure RegisterRaw where
  email : Option JVal
  firstName : Option JVal
  lastName : Option JVal
  password : Option JVal
  teamId : Option JVal
  teamName : Option JVal
deriving DecidableEq, Repr

/-- The parsed registration output (`RegisterInput`): the tagged union
leaves exactly one of `teamId` / `teamName` a string, the other
`null` (modelled as `none`). -/
structure RegisterOutput where
  email : String
  firstName : String
  lastName : String
  password : String
  teamId : Option String
  teamName : Option String
deriving DecidableEq, Repr

/-- Model of `z.string().min(n)` on one key: the key must be present
with a string value of length at least `n`. -/
def parseStrMin (n : Nat) (v : Option JVal) : Option String :=
  match v with
  | some (JVal.str s) => if n ≤ s.length then some s else none
  | _ => none

/-- Model of `z.null().default(null)` on one key: an absent key
defaults to `null`; a present key must be `null`; a string value is
rejected. -/
def parseNullDefault (v : Option JVal) : Option Unit :=
  match v with
  | none => some ()
  | some JVal.nullv => some ()
  | some (JVal.str _) => none

/-- The first branch of the union:
`{ teamId: z.string().min(1), teamName: z.null().default(null) }`.
Returns the `(teamId, teamName)` pair of the branch output. -/
def parseTeamIdBranch (raw : RegisterRaw) :
    Option (Option String × Option String) :=
  match parseStrMin 1 raw.teamId, parseNullDefault raw.teamName with
  | some tid, some _ => some (some tid, none)
  | _, _ => none

/-- The second branch of the union:
`{ teamName: z.string().min(1), teamId: z.null().default(null) }`. -/
def parseTeamNameBranch (raw : RegisterRaw) :
    Option (Option String × Option String) :=
  match parseStrMin 1 raw.teamName, parseNullDefault raw.teamId with
  | some tname, some _ => some (none, some tname)
  | _, _ => none

/-- The `.or` of the two branches: zod tries the first option and
falls back to the second. -/
def parseTeamPart (raw : RegisterRaw) :
    Option (Option String × Option String) :=
  (parseTeamIdBranch raw).orElse (fun _ => parseTeamNameBranch raw)

/-- Model of `registerInputSchema.parse`: the base object (email,
first name, last name of length at least 1, password of length at
least 5) intersected with the tagged union on the team fields; the
intersection parses both sides and merges their (disjoint) outputs. -/
def parseRegisterInput (raw : RegisterRaw) : Option RegisterOutput :=
  match parseStrMin 1 raw.email, parseStrMin 1 raw.firstName,
      parseStrMin 1 raw.lastName, parseStrMin 5 raw.password,
      parseTeamPart raw with
  | some e, some f, some l, some p, some team =>
      some { email := e, firstName := f, lastName := l, password := p,
             teamId := team.1, teamName := team.2 }
  | _, _, _, _, _ => none

/-! ## Query-client configurations -/

/-- The default query options a query-client configuration may set;
`none` means the option is left at the library default. -/
structure QueryDefaults where
  throwOnError : Option Bool
  refetchOnWindowFocus : Option Bool
  retry : Option Bool
  staleTime : Option Nat
deriving DecidableEq, Repr

/-- The `queryConfig` object passed to `new QueryClient` in the
first configuration (`react-query.ts`): `throwOnError: true`,
`refetchOnWindowFocus: false`, `retry: false`,
`staleTime: 1000 * 60` milliseconds. -/
def queryConfig : QueryDefaults :=
  { throwOnError := some true
    refetchOnWindowFocus := some false
    retry := some false
    staleTime := some (1000 * 60) }

/-- The defaults passed to `new QueryClient` by `createQueryClient`
in the second configuration: only `staleTime: 30 * 1000`
milliseconds is set. -/
def createQueryClientDefaults : QueryDefaults :=
  { throwOnError := none
    refetchOnWindowFocus := none
    retry := none
    staleTime := some (30 * 1000) }

/-- A concrete user for counterexamples and witnesses. -/
def sampleUser : User :=
  { id := "u1", email := "alice@example.com", name := "Alice" }

/-! ## Theorems -/

/-- C1, counterexample: with no session but a `"user"` cache entry
holding a user, `useUser` reports that cached user, not the absence
value `null` — disabling a query suppresses fetching but not the
cached data, so the claim's "returns null on every render without a
session" is false. -/
theorem useUser_noSession_counterexample :
    (useUser none [("user", some sampleUser)] false).data = some sampleUser ∧
      (useUser none [("user", some sampleUser)] false).data ≠ none ∧
      (useUser none [("user", some sampleUser)] false).fetchTriggered = false := by
  refine ⟨rfl, ?_, rfl⟩
  decide

/-- C1, amended: on every render of `useUser` with no session, the
fallback lookup query is disabled (its query function is never
triggered), and the reported data is whatever the cache holds under
`"user"` — in particular `null` whenever that entry is absent or
holds `null`. -/
theorem useUser_noSession_disabled (cache : QueryCache) (stale : Bool) :
    (useUser none cache stale).fetchTriggered = false ∧
      (useUser none cache stale).data = cachedUser cache :=
  ⟨rfl, rfl⟩

/-- C2: on every render of `useUser` with a session present, the
reported data is the session's user, whatever the cache holds under
`"user"` and whatever the fallback query would report. -/
theorem useUser_session_precedence (s : Session) (cache : QueryCache)
    (stale : Bool) :
    (useUser (some s) cache stale).data = some s.user :=
  rfl

/-- C9: when `signOut` rejects, `useLogout`'s mutation leaves the
query cache unchanged (in particular the `"user"` entry is intact)
and produces no events: no removal and no success-callback
invocation. -/
theorem useLogout_signOut_failure (cache : QueryCache) :
    (runLogout false cache).1 = cache ∧
      List.lookup "user" (runLogout false cache).1 =
        List.lookup "user" cache ∧
      (runLogout false cache).2 = [] :=
  ⟨rfl, rfl, rfl⟩

/-- C4: the query function of `getUserQueryOptions` never propagates
an error — every outcome of the `/auth/me` call yields an `ok`
result, and every failing outcome yields the absence value `null`. -/
theorem getUserQueryFn_never_throws :
    (∀ e, getUserQueryFn (Except.error e) = Except.ok none) ∧
      ∀ r, ∃ v, getUserQueryFn r = Except.ok v :=
  ⟨fun _ => rfl, fun r =>
    match r with
    | Except.ok resp => ⟨some resp.data, rfl⟩
    | Except.error _ => ⟨none, rfl⟩⟩

/-- C8: the repository's two query-client configurations — the first
sets `throwOnError` to `true`, `refetchOnWindowFocus` to `false`,
`retry` to `false` and a 60-second (`1000 * 60` ms) staleness window;
the second sets only a 30-second (`30 * 1000` ms) staleness window
and leaves the other options at the library defaults. -/
theorem queryClient_configurations :
    queryConfig.throwOnError = some true ∧
      queryConfig.refetchOnWindowFocus = some false ∧
      queryConfig.retry = some false ∧
      queryConfig.staleTime = some 60000 ∧
      createQueryClientDefaults.staleTime = some 30000 ∧
      createQueryClientDefaults.throwOnError = none ∧
      createQueryClientDefaults.refetchOnWindowFocus = none ∧
      createQueryClientDefaults.retry = none :=
  ⟨rfl, rfl, rfl, rfl, rfl, rfl, rfl, rfl⟩

/-- Looking up a key in an association list from which every pair
with that key has been filtered out yields nothing. -/
theorem lookup_filter_ne (key : String)
    (cache : List (String × Option User)) :
    List.lookup key (cache.filter (fun p => p.1 ≠ key)) = none := by
  induction cache with
  | nil => rfl
  | cons hd tl ih =>
      obtain ⟨k, v⟩ := hd
      by_cases h : k = key
      · simpa [List.filter, h] using ih
      · have hbeq : (key == k) = false := beq_eq_false_iff_ne.mpr (Ne.symm h)
        simpa [List.filter, List.lookup, h, hbeq] using ih

/-- C3: whatever the prior cache contents, a logout run whose
`signOut` resolves leaves no `"user"` cache entry, and its event
trace is the removal of the `"user"` queries followed by the
caller-supplied success callback (the callback fires after the
removal, exactly once). -/
theorem useLogout_removes_user_entry (cache : QueryCache) :
    List.lookup "user" (runLogout true cache).1 = none ∧
      (runLogout true cache).2 =
        [LogoutEvent.removeUserQueries, LogoutEvent.successCallback] := by
  refine ⟨?_, rfl⟩
  simpa [runLogout, removeUserEntries] using
    lookup_filter_ne "user" cache

/-- C5: a run of `useLogin`'s mutation on a `signIn` result whose
`error` is set (a non-empty string `e`) raises an error carrying `e`
and invokes the success callback zero times; a run on a result
reporting no error succeeds with that result and invokes the success
callback exactly once. -/
theorem useLogin_callback_discipline (result : Option SignInResult) :
    (∀ e, resultError result = some e → e ≠ "" →
        runLoginMutation result = (Except.error e, 0)) ∧
      (jsTruthy (resultError result) = false →
        runLoginMutation result = (Except.ok result, 1)) := by
  constructor
  · intro e he hne
    simp [runLoginMutation, he, hne]
  · intro h
    cases hres : resultError result with
    | none => simp [runLoginMutation, hres]
    | some e =>
        rw [hres] at h
        have he : e = "" := by
          by_contra hne
          simp [jsTruthy, hne] at h
        subst he
        simp [runLoginMutation, hres]

/-- C5, witness: the theorem applied to a provider-reported error
`"CredentialsSignin"` and to an error-free result. -/
theorem useLogin_callback_discipline_witness :
    runLoginMutation (some { error := some "CredentialsSignin" }) =
        (Except.error "CredentialsSignin", 0) ∧
      runLoginMutation (some { error := none }) =
        (Except.ok (some { error := none }), 1) :=
  ⟨(useLogin_callback_discipline
        (some { error := some "CredentialsSignin" })).1
      "CredentialsSignin" rfl (by decide),
    (useLogin_callback_discipline (some { error := none })).2 (by decide)⟩

/-- C6: a login submission whose password is shorter than 5
characters, or whose email fails the email-format check, is rejected
by `loginInputSchema` validation; `signIn` — the session provider's
credential exchange — is called zero times, so no network call is
made. -/
theorem loginValidation_blocks_network (email password : String)
    (provider : Option SignInResult)
    (h : password.length < 5 ∨ isZodEmail email = false) :
    submitLogin email password provider =
      (Except.error "validation failed", 0, 0) := by
  have hcond :
      (email.length ≥ 1 && isZodEmail email && password.length ≥ 5)
        = false := by
    rcases h with h | h
    · simp [Nat.not_le.mpr h]
    · simp [h]
  simp [submitLogin, parseLoginInput, hcond]

/-- C6, witness: the theorem applied to a well-formed email with a
3-character password. -/
theorem loginValidation_blocks_network_witness :
    submitLogin "alice@example.com" "abc" none =
      (Except.error "validation failed", 0, 0) :=
  loginValidation_blocks_network "alice@example.com" "abc" none
    (Or.inl (by decide))

/-- If `parseStrMin` accepts a field, the field held a string of the
required minimum length. -/
theorem parseStrMin_spec (n : Nat) (v : Option JVal) (s : String)
    (h : parseStrMin n v = some s) :
    v = some (JVal.str s) ∧ n ≤ s.length := by
  match v with
  | none => exact absurd h (by simp [parseStrMin])
  | some JVal.nullv => exact absurd h (by simp [parseStrMin])
  | some (JVal.str t) =>
      by_cases hn : n ≤ t.length
      · have : t = s := by simpa [parseStrMin, hn] using h
        subst this
        exact ⟨rfl, hn⟩
      · exact absurd h (by simp [parseStrMin, hn])

/-- If the team part of the registration schema accepts, exactly one
of the two team fields is in the output: a string of length at least
one, with the other `null`. -/
theorem parseTeamPart_spec (raw : RegisterRaw)
    (team : Option String × Option String)
    (h : parseTeamPart raw = some team) :
    (∃ s, team = (some s, none) ∧ 1 ≤ s.length) ∨
      ∃ t, team = (none, some t) ∧ 1 ≤ t.length := by
  rw [parseTeamPart] at h
  cases hid : parseTeamIdBranch raw with
  | some tm =>
      left
      rw [hid] at h
      obtain rfl : tm = team := by simpa [Option.orElse] using h
      rw [parseTeamIdBranch] at hid
      cases hsm : parseStrMin 1 raw.teamId with
      | none => rw [hsm] at hid; exact absurd hid (by simp)
      | some tid =>
          rw [hsm] at hid
          cases hnd : parseNullDefault raw.teamName with
          | none => rw [hnd] at hid; exact absurd hid (by simp)
          | some u =>
              rw [hnd] at hid
              obtain ⟨-, hlen⟩ := parseStrMin_spec 1 raw.teamId tid hsm
              exact ⟨tid, by simpa using hid.symm, hlen⟩
  | none =>
      right
      rw [hid] at h
      have hname : parseTeamNameBranch raw = some team := by
        simpa [Option.orElse] using h
      rw [parseTeamNameBranch] at hname
      cases hsm : parseStrMin 1 raw.teamName with
      | none => rw [hsm] at hname; exact absurd hname (by simp)
      | some tname =>
          rw [hsm] at hname
          cases hnd : parseNullDefault raw.teamId with
          | none => rw [hnd] at hname; exact absurd hname (by simp)
          | some u =>
              rw [hnd] at hname
              obtain ⟨-, hlen⟩ := parseStrMin_spec 1 raw.teamName tname hsm
              exact ⟨tname, by simpa using hname.symm, hlen⟩

/-- If the registration schema accepts, the team part accepted and
its output is the pair of team fields in the parsed output. -/
theorem parseRegisterInput_team (raw : RegisterRaw)
    (out : RegisterOutput) (h : parseRegisterInput raw = some out) :
    parseTeamPart raw = some (out.teamId, out.teamName) := by
  rw [parseRegisterInput] at h
  split at h
  · cases h
    assumption
  · exact absurd h (by simp)

/-- C10: every accepted registration input parses to an output whose
team fields hold exactly one non-empty string — the other field is
`null` (filled in by the branch's default). -/
theorem registerOutput_exactly_one_team (raw : RegisterRaw)
    (out : RegisterOutput) (h : parseRegisterInput raw = some out) :
    (∃ s, out.teamId = some s ∧ 1 ≤ s.length ∧ out.teamName = none) ∨
      ∃ t, out.teamName = some t ∧ 1 ≤ t.length ∧ out.teamId = none := by
  have hteam := parseRegisterInput_team raw out h
  rcases parseTeamPart_spec raw _ hteam with ⟨s, hpair, hlen⟩ |
      ⟨t, hpair, hlen⟩
  · exact Or.inl
      ⟨s, congrArg Prod.fst hpair, hlen, congrArg Prod.snd hpair⟩
  · exact Or.inr
      ⟨t, congrArg Prod.snd hpair, hlen, congrArg Prod.fst hpair⟩

/-- C10, witness: the theorem applied to a concrete accepted
registration input carrying only a team identifier. -/
theorem registerOutput_exactly_one_team_witness :
    (∃ s, (RegisterOutput.mk "e@x.co" "A" "B" "12345" (some "t1")
        none).teamId = some s ∧ 1 ≤ s.length ∧
        (RegisterOutput.mk "e@x.co" "A" "B" "12345" (some "t1")
          none).teamName = none) ∨
      ∃ t, (RegisterOutput.mk "e@x.co" "A" "B" "12345" (some "t1")
          none).teamName = some t ∧ 1 ≤ t.length ∧
        (RegisterOutput.mk "e@x.co" "A" "B" "12345" (some "t1")
          none).teamId = none :=
  registerOutput_exactly_one_team
    { email := some (JVal.str "e@x.co")
      firstName := some (JVal.str "A")
      lastName := some (JVal.str "B")
      password := some (JVal.str "12345")
      teamId := some (JVal.str "t1")
      teamName := none }
    (RegisterOutput.mk "e@x.co" "A" "B" "12345" (some "t1") none)
    (by decide)

/-- When the team-name key holds a string, the team-identifier branch
of the union rejects (its `teamName` member only accepts `null` or an
absent key). -/
theorem parseTeamIdBranch_none_of_str (raw : RegisterRaw)
    (tname : String) (hname : raw.teamName = some (JVal.str tname)) :
    parseTeamIdBranch raw = none := by
  rw [parseTeamIdBranch, hname]
  cases parseStrMin 1 raw.teamId <;> rfl

/-- When the team-identifier key holds a string, the team-name branch
of the union rejects. -/
theorem parseTeamNameBranch_none_of_str (raw : RegisterRaw)
    (tid : String) (hid : raw.teamId = some (JVal.str tid)) :
    parseTeamNameBranch raw = none := by
  rw [parseTeamNameBranch, hid]
  cases parseStrMin 1 raw.teamName <;> rfl

/-- When the team part of the schema rejects, the whole registration
schema rejects. -/
theorem parseRegisterInput_none_of_team (raw : RegisterRaw)
    (h : parseTeamPart raw = none) : parseRegisterInput raw = none := by
  rw [parseRegisterInput]
  split
  · next he hf hl hp ht =>
      rw [h] at ht
      exact absurd ht (by simp)
  · rfl

/-- C7: the registration schema rejects every input in which both
team fields are present as (non-empty) strings, rejects every input
in which both are absent, and accepts an input carrying exactly one
of the two once email, first name and last name are non-empty and the
password has length at least 5. -/
theorem registerSchema_team_exclusivity (raw : RegisterRaw)
    (e f l p s : String) :
    (∀ tid tname : String,
        raw.teamId = some (JVal.str tid) → 1 ≤ tid.length →
        raw.teamName = some (JVal.str tname) → 1 ≤ tname.length →
        parseRegisterInput raw = none) ∧
      (raw.teamId = none → raw.teamName = none →
        parseRegisterInput raw = none) ∧
      (1 ≤ e.length → 1 ≤ f.length → 1 ≤ l.length → 5 ≤ p.length →
        1 ≤ s.length →
        (parseRegisterInput
            { email := some (JVal.str e), firstName := some (JVal.str f)
              lastName := some (JVal.str l)
              password := some (JVal.str p)
              teamId := some (JVal.str s), teamName := none }).isSome
            = true ∧
          (parseRegisterInput
              { email := some (JVal.str e)
                firstName := some (JVal.str f)
                lastName := some (JVal.str l)
                password := some (JVal.str p)
                teamId := none, teamName := some (JVal.str s) }).isSome
              = true) := by
  refine ⟨?_, ?_, ?_⟩
  · intro tid tname hid _ hname _
    apply parseRegisterInput_none_of_team
    rw [parseTeamPart, parseTeamIdBranch_none_of_str raw tname hname,
      parseTeamNameBranch_none_of_str raw tid hid]
    rfl
  · intro hid hname
    apply parseRegisterInput_none_of_team
    rw [parseTeamPart, parseTeamIdBranch, parseTeamNameBranch, hid,
      hname]
    rfl
  · intro he hf hl hp hs
    constructor
    · simp [parseRegisterInput, parseStrMin, parseTeamPart,
        parseTeamIdBranch, parseTeamNameBranch, parseNullDefault,
        Option.orElse, he, hf, hl, hp, hs]
    · simp [parseRegisterInput, parseStrMin, parseTeamPart,
        parseTeamIdBranch, parseTeamNameBranch, parseNullDefault,
        Option.orElse, he, hf, hl, hp, hs]

/-- C7, witness: the theorem applied to concrete inputs — both team
fields present, both absent, and each exactly-one variant. -/
theorem registerSchema_team_exclusivity_witness :
    parseRegisterInput
        { email := some (JVal.str "e@x.co")
          firstName := some (JVal.str "A")
          lastName := some (JVal.str "B")
          password := some (JVal.str "12345")
          teamId := some (JVal.str "t1")
          teamName := some (JVal.str "Team") } = none ∧
      parseRegisterInput
          { email := some (JVal.str "e@x.co")
            firstName := some (JVal.str "A")
            lastName := some (JVal.str "B")
            password := some (JVal.str "12345")
            teamId := none, teamName := none } = none ∧
        ((parseRegisterInput
              { email := some (JVal.str "e@x.co")
                firstName := some (JVal.str "A")
                lastName := some (JVal.str "B")
                password := some (JVal.str "12345")
                teamId := some (JVal.str "t1")
                teamName := none }).isSome = true ∧
          (parseRegisterInput
              { email := some (JVal.str "e@x.co")
                firstName := some (JVal.str "A")
                lastName := some (JVal.str "B")
                password := some (JVal.str "12345")
                teamId := none
                teamName := some (JVal.str "t1") }).isSome = true) :=
  ⟨(registerSchema_team_exclusivity
        { email := some (JVal.str "e@x.co")
          firstName := some (JVal.str "A")
          lastName := some (JVal.str "B")
          password := some (JVal.str "12345")
          teamId := some (JVal.str "t1")
          teamName := some (JVal.str "Team") }
        "e@x.co" "A" "B" "12345" "t1").1
      "t1" "Team" rfl (by decide) rfl (by decide),
    (registerSchema_team_exclusivity
        { email := some (JVal.str "e@x.co")
          firstName := some (JVal.str "A")
          lastName := some (JVal.str "B")
          password := some (JVal.str "12345")
          teamId := none, teamName := none }
        "e@x.co" "A" "B" "12345" "t1").2.1 rfl rfl,
    (registerSchema_team_exclusivity
        { email := some (JVal.str "e@x.co")
          firstName := some (JVal.str "A")
          lastName := some (JVal.str "B")
          password := some (JVal.str "12345")
          teamId := none, teamName := none }
        "e@x.co" "A" "B" "12345" "t1").2.2
      (by decide) (by decide) (by decide) (by decide) (by decide)⟩

end PersonalWebsite
